import Mathlib

/-!
# Verification of `create_sophisticated_presentations.py`

A shallow embedding of the slide-deck generator.  The script builds five
presentation decks by appending absolutely positioned shapes and text boxes
to slides and, for selected shapes, injecting an `a:alpha` child into the
shape's `a:srgbClr` fill-colour node (the "alpha injector" workaround).

Units and conventions of the embedding:

* Lengths are recorded in thousandths of an inch (`Inches x` in the source
  becomes the integer `1000 * x`; every literal in the source has at most
  three decimal places, so this is exact).  The slide canvas is
  13333 × 7500.
* Colours are RGB channel triples.  The document library's colour
  constructor `RGBColor(r, g, b)` raises `ValueError` unless every channel
  is an integer in [0, 255]; this is the only validation on the shape/text
  placement path and is modelled by `RGBColor` below.
* A `Shape` records the constructor kind, the geometry handed to
  `slide.shapes.add_shape`, its fill (`solid` after `fill.solid()` plus
  `fore_color.rgb = ...`, `noFill` after `fill.background()`), and the list
  of `a:alpha` values appended to its `a:srgbClr` node, in append order
  (values in thousandths of a percent, exactly as in the source's
  `val="15000"` etc.).  A `TextBox` records the geometry handed to
  `slide.shapes.add_textbox`.
* Text content, fonts, line colour/width, rotation and corner-radius
  adjustments are styling details no claim refers to; they are not
  recorded.  Z-order is list order, exactly the source's append order.
-/

namespace Pres

/-- Slide width: `SLIDE_WIDTH = Inches(13.333)` (thousandths of an inch). -/
def SLIDE_WIDTH : Int := 13333

/-- Slide height: `SLIDE_HEIGHT = Inches(7.5)` (thousandths of an inch). -/
def SLIDE_HEIGHT : Int := 7500

/-- An RGB colour with channels already validated to [0, 255]. -/
structure RGB where
  r : Nat
  g : Nat
  b : Nat
  deriving DecidableEq, Repr

/-- Shorthand for colour literals such as `RGBColor(0xFF, 0x79, 0x32)`. -/
def rgb (r g b : Nat) : RGB := ⟨r, g, b⟩

def AVEMO_ORANGE : RGB := rgb 0xFF 0x79 0x32
def AVEMO_BLACK : RGB := rgb 0x1A 0x1A 0x1A
def AVEMO_WHITE : RGB := rgb 0xFF 0xFF 0xFF
def AVEMO_GRAY_DARK : RGB := rgb 0x33 0x33 0x33
def AVEMO_GRAY_MID : RGB := rgb 0x66 0x66 0x66
def AVEMO_GRAY_LIGHT : RGB := rgb 0xF5 0xF5 0xF5

/-- `MSO_SHAPE` constants used by the script. -/
inductive ShapeKind where
  | rectangle
  | roundedRectangle
  | oval
  deriving DecidableEq, Repr

/-- A shape's fill state: `solid c` after `fill.solid()` followed by
`fill.fore_color.rgb = c` (the XML then holds `a:solidFill/a:srgbClr`);
`noFill` after `fill.background()` (no `a:solidFill` element exists). -/
inductive Fill where
  | noFill
  | solid (c : RGB)
  deriving DecidableEq, Repr

/-- A shape as appended by `slide.shapes.add_shape(kind, left, top, width,
height)` and then styled.  `alphas` is the list of `a:alpha` values appended
to the `a:srgbClr` node (thousandths of a percent), in append order. -/
structure Shape where
  kind : ShapeKind
  left : Int
  top : Int
  width : Int
  height : Int
  fill : Fill
  alphas : List Nat
  deriving DecidableEq, Repr

/-- A text box as appended by `slide.shapes.add_textbox(left, top, width,
height)` (content and font styling are not recorded). -/
structure TextBox where
  left : Int
  top : Int
  width : Int
  height : Int
  deriving DecidableEq, Repr

/-- One element of a slide's z-ordered stack. -/
inductive Element where
  | shape (s : Shape)
  | text (t : TextBox)
  deriving DecidableEq, Repr

instance : Inhabited Element := ⟨.text ⟨0, 0, 0, 0⟩⟩

/-- A slide is its ordered element stack (append order = z-order). -/
abbrev Slide := List Element

/-- A presentation: canvas dimensions plus the ordered slide list.
`Presentation()` starts from the default template (10 × 7.5 inches); the
script immediately assigns `prs.slide_width` / `prs.slide_height`. -/
structure Deck where
  slide_width : Int
  slide_height : Int
  slides : List Slide
  deriving DecidableEq, Repr

/-- `Presentation()`: the default template before the script assigns the
16:9 dimensions. -/
def Presentation_new : Deck := { slide_width := 10000, slide_height := 7500, slides := [] }

/-- `prs.slides.add_slide(prs.slide_layouts[6])`: appends a blank slide. -/
def add_slide (d : Deck) : Deck := { d with slides := d.slides ++ [[]] }

/-- Appending one finished slide (a blank slide plus the element stack the
script then builds onto it). -/
def add_built_slide (d : Deck) (s : Slide) : Deck := { d with slides := d.slides ++ [s] }

/-! ## The alpha injector

Every injection site in the source is the same inline block:

```
spPr = shape._element.spPr
solidFill = spPr.find(qn('a:solidFill'))
if solidFill is not None:
    srgbClr = solidFill.find(qn('a:srgbClr'))
    if srgbClr is not None:
        alpha = parse_xml(f'<a:alpha ... val="15000"/>')
        srgbClr.append(alpha)
```

`a:solidFill` exists exactly when the shape's fill is solid, and the source
sets `fore_color.rgb` immediately after every `fill.solid()`, so `a:srgbClr`
exists exactly when `a:solidFill` does.  The block therefore APPENDS `val`
to the solid fill's alpha list and is a silent no-op on any other fill. -/

/-- The spec's `set_opacity(shape_handle, val)`: the inline alpha-injection
block above.  `val` is in thousandths of a percent. -/
def set_opacity (s : Shape) (val : Nat) : Shape :=
  match s.fill with
  | .solid _ => { s with alphas := s.alphas ++ [val] }
  | .noFill => s

/-! ## Shape and text placement -/

/-- Errors the construction path can signal (as Python exceptions). -/
inductive BuildError where
  | invalidColor
  deriving DecidableEq, Repr

/-- The document library's colour constructor `RGBColor(r, g, b)`: raises
`ValueError` unless every channel is an integer in [0, 255].  This is how
every colour in the script is made, and it is the only input validation on
the placement path. -/
def RGBColor (r g b : Int) : Except BuildError RGB :=
  if 0 ≤ r ∧ r ≤ 255 ∧ 0 ≤ g ∧ g ≤ 255 ∧ 0 ≤ b ∧ b ≤ 255 then
    .ok (rgb r.toNat g.toNat b.toNat)
  else
    .error .invalidColor

/-- `slide.shapes.add_shape(shape_type, left, top, width, height)` followed
by `fill.solid()` and `fill.fore_color.rgb = fill_color`: appends the shape
and returns it.  No geometry validation is performed anywhere on this path -
the caller's values are recorded exactly as supplied. -/
def add_shape (slide : Slide) (shape_type : ShapeKind)
    (left top width height : Int) (fill_color : RGB) : Slide × Shape :=
  let shape : Shape :=
    { kind := shape_type, left := left, top := top, width := width,
      height := height, fill := .solid fill_color, alphas := [] }
  (slide ++ [.shape shape], shape)

/-- `add_shape_with_opacity(slide, shape_type, left, top, width, height,
fill_color, opacity=1.0, line_color=None)` (source lines 36-46): adds the
shape, sets the solid fill colour, and configures the outline from
`line_color` (line styling is not recorded).  The body never reads
`opacity`. -/
def add_shape_with_opacity (slide : Slide) (shape_type : ShapeKind)
    (left top width height : Int) (fill_color : RGB) (opacity : ℚ)
    (line_color : Option RGB) : Slide × Shape :=
  add_shape slide shape_type left top width height fill_color

/-- `add_text_box(slide, left, top, width, height, text, font_size,
font_color, ...)` (source lines 49-61): appends a text box (content and font
styling are not recorded). -/
def add_text_box (slide : Slide) (left top width height : Int) : Slide × TextBox :=
  let t : TextBox := { left := left, top := top, width := width, height := height }
  (slide ++ [.text t], t)

/-- The spec's `place_shape`: the source's idiom `RGBColor(r, g, b)` (which
may raise) followed by the shape-placement call.  Geometry is passed through
unvalidated. -/
def place_shape (slide : Slide) (kind : ShapeKind) (left top width height : Int)
    (r g b : Int) : Except BuildError (Slide × Shape) :=
  (RGBColor r g b).map fun c => add_shape slide kind left top width height c

/-- The spec's `place_text`: the source's idiom `RGBColor(r, g, b)` for the
font colour (which may raise) followed by the text-box placement call. -/
def place_text (slide : Slide) (left top width height : Int)
    (r g b : Int) : Except BuildError (Slide × TextBox) :=
  (RGBColor r g b).map fun _ => add_text_box slide left top width height

/-! ## The five decks

Each `pNsM` below is the element stack of design N, slide M, transcribed in
source order; `for` loops of the script stay loops (`List.range ... |>.flatMap`).
Shorthand: `shapeE k l t w h c` is `add_shape` + `fill.solid()` +
`fore_color.rgb = c`; `shapeA ... a` is the same followed by the alpha
injection with value `a`; `shapeNF` is `add_shape` + `fill.background()`;
`txt l t w h` is a text box. -/

/-- A solid-filled shape element. -/
def shapeE (k : ShapeKind) (l t w h : Int) (c : RGB) : Element :=
  .shape { kind := k, left := l, top := t, width := w, height := h,
           fill := .solid c, alphas := [] }

/-- A solid-filled shape element with one injected alpha value. -/
def shapeA (k : ShapeKind) (l t w h : Int) (c : RGB) (a : Nat) : Element :=
  .shape (set_opacity
    { kind := k, left := l, top := t, width := w, height := h,
      fill := .solid c, alphas := [] } a)

/-- A line-only shape element (`fill.background()`). -/
def shapeNF (k : ShapeKind) (l t w h : Int) : Element :=
  .shape { kind := k, left := l, top := t, width := w, height := h,
           fill := .noFill, alphas := [] }

/-- A text-box element. -/
def txt (l t w h : Int) : Element := .text { left := l, top := t, width := w, height := h }

/-- Design 1 slide 1 (source lines 77-130). -/
def p1s1 : Slide :=
  [shapeE .rectangle 0 0 SLIDE_WIDTH SLIDE_HEIGHT (rgb 0x0D 0x0D 0x0D),
   shapeE .rectangle 0 0 SLIDE_WIDTH 150 AVEMO_ORANGE,
   shapeA .oval 8000 1000 6000 6000 (rgb 0xFF 0x79 0x32) 15000,
   txt 800 2200 10000 1500,
   txt 800 4000 8000 800,
   shapeA .roundedRectangle 800 5200 7000 1500 (rgb 0x1A 0x1A 0x1A) 70000,
   txt 1000 5500 6600 1000]

/-- Design 1 slide 2 (source lines 133-185). -/
def p1s2 : Slide :=
  [shapeE .rectangle 0 0 SLIDE_WIDTH SLIDE_HEIGHT (rgb 0x0D 0x0D 0x0D),
   shapeE .rectangle 0 0 5000 SLIDE_HEIGHT (rgb 0x14 0x14 0x14),
   txt 500 800 4000 600,
   txt 500 1500 4000 1000] ++
  ((List.range 4).flatMap fun i =>
    let y : Int := 3000 + 1000 * (i : Int)
    [shapeA .roundedRectangle 500 y 4000 850 (rgb 0x22 0x22 0x22) 60000,
     txt 700 (y + 150) 3600 300,
     txt 700 (y + 450) 3600 300]) ++
  [txt 5500 3000 7000 2000,
   txt 5500 5000 7000 500]

/-- Design 1 slide 3 (source lines 188-233). -/
def p1s3 : Slide :=
  [shapeE .rectangle 0 0 SLIDE_WIDTH SLIDE_HEIGHT (rgb 0x0D 0x0D 0x0D),
   shapeA .rectangle (-2000) 5000 20000 4000 (rgb 0xFF 0x79 0x32) 20000,
   txt 800 800 5000 600,
   txt 800 1500 10000 1000] ++
  ((List.range 4).flatMap fun i =>
    let x : Int := 800 + 6000 * ((i % 2 : Nat) : Int)
    let y : Int := 3000 + 1800 * ((i / 2 : Nat) : Int)
    [shapeE .rectangle x y 80 1200 AVEMO_ORANGE,
     txt (x + 200) (y + 100) 5000 400,
     txt (x + 200) (y + 550) 5000 500])

/-- Design 1 slide 4 (source lines 236-282). -/
def p1s4 : Slide :=
  [shapeE .rectangle 0 0 SLIDE_WIDTH SLIDE_HEIGHT (rgb 0x0D 0x0D 0x0D),
   txt 800 600 6000 500,
   txt 800 1200 10000 800] ++
  ((List.range 6).flatMap fun i =>
    let x : Int := 800 + 4000 * ((i % 3 : Nat) : Int)
    let y : Int := 2500 + 2200 * ((i / 3 : Nat) : Int)
    [shapeA .roundedRectangle x y 3600 1800 (rgb 0x1A 0x1A 0x1A) 50000,
     txt (x + 200) (y + 150) 500 500,
     txt (x + 200) (y + 700) 3200 900])

/-- Design 1 slide 5 (source lines 285-317). -/
def p1s5 : Slide :=
  [shapeE .rectangle 0 0 SLIDE_WIDTH SLIDE_HEIGHT (rgb 0x0D 0x0D 0x0D),
   shapeA .oval 7000 (-2000) 10000 12000 (rgb 0xFF 0x79 0x32) 20000,
   txt 800 2500 10000 1200,
   txt 800 3500 10000 1500,
   txt 800 5500 6000 1000,
   shapeE .rectangle 800 6800 2000 60 AVEMO_ORANGE]

/-- `create_presentation_1` (source lines 64-320): new presentation, 16:9
canvas assigned once, then the five slides. -/
def create_presentation_1 : Deck :=
  { Presentation_new with
      slide_width := SLIDE_WIDTH
      slide_height := SLIDE_HEIGHT
      slides := [p1s1, p1s2, p1s3, p1s4, p1s5] }

/-- Design 2 slide 1 (source lines 336-381). -/
def p2s1 : Slide :=
  [shapeE .rectangle 0 0 SLIDE_WIDTH SLIDE_HEIGHT AVEMO_WHITE,
   shapeE .rectangle (-1000) (-1000) 8000 10000 AVEMO_GRAY_LIGHT,
   shapeA .roundedRectangle 1000 2000 8000 3500 AVEMO_WHITE 85000,
   shapeE .oval 1500 2500 300 300 AVEMO_ORANGE,
   txt 2000 2400 6000 500,
   txt 1500 3200 7000 1200,
   txt 1500 4500 6000 600,
   shapeE .rectangle 1500 5300 1500 50 AVEMO_ORANGE]

/-- Design 2 slide 2 (source lines 384-437). -/
def p2s2 : Slide :=
  [shapeE .rectangle 0 0 SLIDE_WIDTH SLIDE_HEIGHT AVEMO_WHITE,
   txt 800 600 4000 400,
   shapeE .rectangle 800 1100 1200 60 AVEMO_ORANGE] ++
  ((List.range 5).flatMap fun i =>
    let y : Int := 1600 + 1100 * (i : Int)
    [shapeE .oval 800 y 500 500 (if i = 0 then AVEMO_ORANGE else AVEMO_GRAY_LIGHT),
     txt 950 (y + 80) 300 300,
     shapeA .roundedRectangle 1500 (y - 100) 11000 900 AVEMO_WHITE 90000,
     txt 1700 (y + 50) 3000 400,
     txt 1700 (y + 400) 10000 400])

/-- Design 2 slide 3 (source lines 440-482). -/
def p2s3 : Slide :=
  [shapeE .rectangle 0 0 SLIDE_WIDTH SLIDE_HEIGHT AVEMO_WHITE,
   shapeE .rectangle 8000 0 6000 SLIDE_HEIGHT AVEMO_ORANGE,
   txt 800 800 6000 500,
   txt 800 1500 6000 1000] ++
  ((List.range 4).flatMap fun i =>
    let y : Int := 3000 + 1100 * (i : Int)
    [shapeE .oval 800 y 600 600 AVEMO_ORANGE,
     txt 1600 (y + 100) 2500 400,
     txt 1600 (y + 500) 5000 400]) ++
  [txt 8500 3000 4000 3000]

/-- Design 2 slide 4 (source lines 485-530). -/
def p2s4 : Slide :=
  [shapeE .rectangle 0 0 SLIDE_WIDTH SLIDE_HEIGHT AVEMO_WHITE,
   txt 800 600 6000 400,
   txt 800 1200 10000 800] ++
  ((List.range 6).flatMap fun i =>
    let x : Int := 800 + 4100 * ((i % 3 : Nat) : Int)
    let y : Int := 2500 + 2200 * ((i / 3 : Nat) : Int)
    [shapeE .roundedRectangle x y 3800 1900 AVEMO_WHITE,
     shapeE .rectangle x y 3800 80 AVEMO_ORANGE,
     txt (x + 300) (y + 500) 3200 1000,
     txt (x + 300) (y + 250) 500 300])

/-- Design 2 slide 5 (source lines 533-566). -/
def p2s5 : Slide :=
  [shapeE .rectangle 0 0 SLIDE_WIDTH SLIDE_HEIGHT AVEMO_WHITE] ++
  (([((2000 : Int), (1000 : Int)), (10000, 5000), (11000, 500), (1000, 6000)]).flatMap
    fun pos => [shapeA .oval pos.1 pos.2 300 300 AVEMO_ORANGE 30000]) ++
  [txt 800 2800 10000 1000,
   txt 800 3500 10000 1200,
   shapeE .rectangle 800 4700 3000 80 AVEMO_ORANGE,
   txt 800 5200 8000 800]

/-- `create_presentation_2` (source lines 323-569). -/
def create_presentation_2 : Deck :=
  { Presentation_new with
      slide_width := SLIDE_WIDTH
      slide_height := SLIDE_HEIGHT
      slides := [p2s1, p2s2, p2s3, p2s4, p2s5] }

/-- Design 3 slide 1 (source lines 585-606). -/
def p3s1 : Slide :=
  [shapeE .rectangle 0 0 SLIDE_WIDTH SLIDE_HEIGHT AVEMO_BLACK,
   txt (-200) 1500 14000 2000,
   shapeE .rectangle 5500 3300 8000 1800 AVEMO_ORANGE,
   txt 5700 3400 7000 1600,
   txt 800 5800 8000 600]

/-- Design 3 slide 2 (source lines 609-651): split layout, no full-canvas
background - a 4-inch orange panel and a 9.333-inch white panel. -/
def p3s2 : Slide :=
  [shapeE .rectangle 0 0 4000 SLIDE_HEIGHT AVEMO_ORANGE,
   shapeE .rectangle 4000 0 9333 SLIDE_HEIGHT AVEMO_WHITE,
   txt 500 2500 3000 2000,
   txt 800 5000 3000 1000,
   txt 4500 800 8000 600] ++
  ((List.range 5).flatMap fun i =>
    let y : Int := 1800 + 1000 * (i : Int)
    [shapeE .rectangle 4500 (y + 150) 400 40 AVEMO_BLACK,
     txt 5100 y 7000 500])

/-- Design 3 slide 3 (source lines 654-684). -/
def p3s3 : Slide :=
  [shapeE .rectangle 0 0 SLIDE_WIDTH SLIDE_HEIGHT AVEMO_BLACK,
   shapeE .rectangle 2000 1500 9000 4500 AVEMO_WHITE,
   txt 2500 1800 8000 500,
   txt 2500 2400 8000 1000] ++
  ((List.range 4).flatMap fun i =>
    let y : Int := 3600 + 600 * (i : Int)
    [txt 2500 y 3000 400,
     txt 5000 y 5000 400])

/-- Design 3 slide 4 (source lines 687-722). -/
def p3s4 : Slide :=
  [shapeE .rectangle 0 0 SLIDE_WIDTH SLIDE_HEIGHT AVEMO_WHITE,
   txt (-1000) 5500 20000 2000,
   txt 800 600 6000 500] ++
  ((List.range 6).flatMap fun i =>
    let x : Int := 800 + 4100 * ((i % 3 : Nat) : Int)
    let y : Int := 1500 + 2800 * ((i / 3 : Nat) : Int)
    [txt x y 1000 800,
     txt x (y + 800) 3800 600,
     txt x (y + 1300) 3800 500])

/-- Design 3 slide 5 (source lines 725-745). -/
def p3s5 : Slide :=
  [shapeE .rectangle 0 0 SLIDE_WIDTH SLIDE_HEIGHT AVEMO_BLACK,
   shapeE .rectangle 6000 (-2000) 4000 12000 AVEMO_ORANGE,
   txt 800 2500 8000 1000,
   txt 800 3300 8000 1200,
   txt 800 4800 7000 1000]

/-- `create_presentation_3` (source lines 572-748). -/
def create_presentation_3 : Deck :=
  { Presentation_new with
      slide_width := SLIDE_WIDTH
      slide_height := SLIDE_HEIGHT
      slides := [p3s1, p3s2, p3s3, p3s4, p3s5] }

/-- Design 4 slide 1 (source lines 764-795). -/
def p4s1 : Slide :=
  [shapeE .rectangle 0 0 SLIDE_WIDTH SLIDE_HEIGHT (rgb 0xF8 0xF9 0xFA),
   shapeE .roundedRectangle 7000 (-1000) 7000 10000 AVEMO_ORANGE,
   txt 1000 2500 5000 1000,
   txt 1000 3600 5000 800,
   shapeE .rectangle 1000 4600 2000 40 AVEMO_ORANGE,
   txt 7500 3000 5000 2000]

/-- Design 4 slide 2 (source lines 798-833): five cards at explicit
positions. -/
def p4s2 : Slide :=
  [shapeE .rectangle 0 0 SLIDE_WIDTH SLIDE_HEIGHT AVEMO_WHITE,
   shapeE .rectangle 0 0 SLIDE_WIDTH 1500 AVEMO_ORANGE,
   txt 800 500 10000 600] ++
  (([((800 : Int), (1800 : Int)), (4500, 1800), (8200, 1800),
     (2600, 4200), (6300, 4200)]).flatMap fun pos =>
    [shapeE .roundedRectangle pos.1 pos.2 3500 2000 (rgb 0xF8 0xF9 0xFA),
     txt (pos.1 + 200) (pos.2 + 300) 3100 600,
     txt (pos.1 + 200) (pos.2 + 1000) 3100 800])

/-- Design 4 slide 3 (source lines 836-874). -/
def p4s3 : Slide :=
  [shapeE .rectangle 0 0 SLIDE_WIDTH SLIDE_HEIGHT (rgb 0xF8 0xF9 0xFA),
   shapeE .roundedRectangle 800 800 11700 6000 AVEMO_WHITE,
   txt 1300 1300 6000 500,
   txt 1300 1900 10000 800] ++
  ((List.range 4).flatMap fun i =>
    let y : Int := 3000 + 900 * (i : Int)
    [shapeE .oval 1300 y 400 400 AVEMO_ORANGE,
     txt 2000 y 3000 400,
     txt 5000 y 6000 400])

/-- Design 4 slide 4 (source lines 877-917): the asymmetric 2-3-1 layout,
pill fill alternating light gray / orange with the feature index. -/
def p4s4 : Slide :=
  [shapeE .rectangle 0 0 SLIDE_WIDTH SLIDE_HEIGHT AVEMO_WHITE,
   txt 800 600 8000 500,
   txt 800 1200 8000 700] ++
  ((List.range 6).flatMap fun i =>
    let pos := [((800 : Int), (2200 : Int)), (4500, 2200),
                (800, 4000), (4500, 4000), (8200, 4000), (4500, 5800)].getD i (0, 0)
    [shapeE .roundedRectangle pos.1 pos.2 3300 1400
       (if i % 2 = 0 then rgb 0xF8 0xF9 0xFA else AVEMO_ORANGE),
     txt (pos.1 + 300) (pos.2 + 450) 2700 600])

/-- Design 4 slide 5 (source lines 920-940): two half-height panels, no
full-canvas background. -/
def p4s5 : Slide :=
  [shapeE .rectangle 0 0 SLIDE_WIDTH 3750 AVEMO_BLACK,
   shapeE .rectangle 0 3750 SLIDE_WIDTH 3750 AVEMO_ORANGE,
   txt 800 1200 10000 1000,
   txt 800 2100 10000 1000,
   txt 800 4500 10000 1000]

/-- `create_presentation_4` (source lines 751-943). -/
def create_presentation_4 : Deck :=
  { Presentation_new with
      slide_width := SLIDE_WIDTH
      slide_height := SLIDE_HEIGHT
      slides := [p4s1, p4s2, p4s3, p4s4, p4s5] }

/-- Design 5 slide 1 (source lines 959-1018): fifteen semi-transparent grid
lines, a framed main card, stats row. -/
def p5s1 : Slide :=
  [shapeE .rectangle 0 0 SLIDE_WIDTH SLIDE_HEIGHT (rgb 0x0A 0x0E 0x17)] ++
  ((List.range 15).flatMap fun i =>
    let x : Int := 900 * (i : Int)
    [shapeA .rectangle x 0 10 SLIDE_HEIGHT (rgb 0x1A 0x1F 0x2E) 50000]) ++
  [shapeA .roundedRectangle 1000 1500 11000 4500 (rgb 0x11 0x18 0x27) 80000,
   shapeE .rectangle 1000 1500 200 4500 AVEMO_ORANGE,
   txt 1500 1800 10000 1200,
   txt 1500 3200 10000 600,
   txt 1500 4200 10000 600] ++
  ((List.range 3).flatMap fun i =>
    let x : Int := 1500 + 3500 * (i : Int)
    [txt x 6200 3000 600,
     txt x 6800 3000 400])

/-- Status column of the dashboard problem cards (source lines 1037-1042). -/
def p5s2_statuses : List String := ["CRITICAL", "WARNING", "WARNING", "CRITICAL"]

/-- Design 5 slide 2 (source lines 1021-1074): the status indicator is
orange for CRITICAL and amber (0xFFC107) otherwise. -/
def p5s2 : Slide :=
  [shapeE .rectangle 0 0 SLIDE_WIDTH SLIDE_HEIGHT (rgb 0x0A 0x0E 0x17),
   shapeE .rectangle 0 0 SLIDE_WIDTH 1200 (rgb 0x11 0x18 0x27),
   txt 800 350 10000 600] ++
  ((List.range 4).flatMap fun i =>
    let x : Int := 800 + 6000 * ((i % 2 : Nat) : Int)
    let y : Int := 1600 + 2800 * ((i / 2 : Nat) : Int)
    [shapeE .roundedRectangle x y 5500 2400 (rgb 0x11 0x18 0x27),
     txt (x + 300) (y + 200) 3000 400,
     txt (x + 300) (y + 700) 3000 800,
     txt (x + 300) (y + 1500) 3000 400,
     shapeE .oval (x + 4500) (y + 300) 500 500
       (if p5s2_statuses.getD i "" = "CRITICAL" then AVEMO_ORANGE else rgb 0xFF 0xC1 0x07),
     txt (x + 4200) (y + 900) 1000 400])

/-- Design 5 slide 3 (source lines 1077-1143). -/
def p5s3 : Slide :=
  [shapeE .rectangle 0 0 SLIDE_WIDTH SLIDE_HEIGHT (rgb 0x0A 0x0E 0x17),
   shapeE .rectangle 0 0 SLIDE_WIDTH 1200 (rgb 0x11 0x18 0x27),
   txt 800 350 10000 600,
   shapeE .roundedRectangle 800 1600 7000 5400 (rgb 0x11 0x18 0x27),
   txt 1100 1900 6000 800] ++
  ((List.range 4).flatMap fun i =>
    let y : Int := 3000 + 900 * (i : Int)
    [shapeE .oval 1100 (y + 50) 300 300 AVEMO_ORANGE,
     txt 1600 y 2000 400,
     txt 3200 y 4000 400]) ++
  [shapeE .roundedRectangle 8000 1600 4500 5400 (rgb 0x11 0x18 0x27),
   txt 8300 1900 4000 500] ++
  ((List.range 4).flatMap fun i =>
    let y : Int := 2600 + 1100 * (i : Int)
    [txt 8300 y 2000 400,
     txt 8300 (y + 400) 4000 500])

/-- Design 5 slide 4 (source lines 1146-1192). -/
def p5s4 : Slide :=
  [shapeE .rectangle 0 0 SLIDE_WIDTH SLIDE_HEIGHT (rgb 0x0A 0x0E 0x17),
   shapeE .rectangle 0 0 SLIDE_WIDTH 1200 (rgb 0x11 0x18 0x27),
   txt 800 350 10000 600] ++
  ((List.range 6).flatMap fun i =>
    let x : Int := 800 + 4100 * ((i % 3 : Nat) : Int)
    let y : Int := 1600 + 2800 * ((i / 3 : Nat) : Int)
    [shapeE .roundedRectangle x y 3800 2400 (rgb 0x11 0x18 0x27),
     txt (x + 200) (y + 200) 3400 350,
     txt (x + 200) (y + 800) 3400 800,
     txt (x + 3000) (y + 1900) 600 400])

/-- Design 5 slide 5 (source lines 1195-1226): the two animated-border
shapes use `fill.background()` - they are the script's only line-only
shapes (their dangling `spPr` lookup does nothing). -/
def p5s5 : Slide :=
  [shapeE .rectangle 0 0 SLIDE_WIDTH SLIDE_HEIGHT (rgb 0x0A 0x0E 0x17),
   shapeE .roundedRectangle 2000 1500 9300 4500 (rgb 0x11 0x18 0x27)] ++
  (([(20 : Int), 40]).flatMap fun o =>
    [shapeNF .roundedRectangle (2000 - o) (1500 - o) (9300 + o * 2) (4500 + o * 2)]) ++
  [txt 2500 2200 8000 1000,
   txt 2500 3000 8000 1000,
   txt 2500 4200 8000 800]

/-- `create_presentation_5` (source lines 946-1229). -/
def create_presentation_5 : Deck :=
  { Presentation_new with
      slide_width := SLIDE_WIDTH
      slide_height := SLIDE_HEIGHT
      slides := [p5s1, p5s2, p5s3, p5s4, p5s5] }

/-- The five decks in the order `__main__` builds them. -/
def presentations : List Deck :=
  [create_presentation_1, create_presentation_2, create_presentation_3,
   create_presentation_4, create_presentation_5]

/-- The output path each builder saves to (source lines 319, 568, 747, 942,
1228). -/
def artifactPaths : List String :=
  ["/root/fahrerplanung/presentations/design-1-cinematic-dark.pptx",
   "/root/fahrerplanung/presentations/design-2-minimal-glass.pptx",
   "/root/fahrerplanung/presentations/design-3-bold-editorial.pptx",
   "/root/fahrerplanung/presentations/design-4-asymmetric-modern.pptx",
   "/root/fahrerplanung/presentations/design-5-dashboard-tech.pptx"]

/-! ## The `__main__` run

`__main__` (source lines 1232-1240) calls the five builders in order with no
try/except.  Each builder constructs its deck and ends with `prs.save(path)`;
if a save raises, the exception propagates out of `__main__`, so the
builders after the failing one are never invoked.  `runSaves` models this:
`fails` says which output paths fail to serialize, `saved` collects the
paths persisted (in order), and `error` is the exception's failing path, if
any. -/

structure MainResult where
  saved : List String
  error : Option String
  deriving DecidableEq, Repr

/-- Sequentially build-and-save each artifact until a save raises. -/
def runSaves : List String → (String → Bool) → MainResult
  | [], _ => { saved := [], error := none }
  | p :: rest, fails =>
    if fails p then { saved := [], error := some p }
    else
      let r := runSaves rest fails
      { saved := p :: r.saved, error := r.error }

/-- The `__main__` run under a given save-failure behaviour. -/
def runMain (fails : String → Bool) : MainResult := runSaves artifactPaths fails

/-! ## Determinism and serialization

The script itself reads no clock, randomness, process id, or any other
ambient input: its imports are the document library and the unused `os`
module, and every placement argument is a literal or module constant.  The
serialization step is another matter: `prs.save(path)` hands each package
part to the document library's zip writer, which writes members via
`ZipFile.writestr(name, blob)` with a string name - and that call stamps
every zip member header with the CURRENT LOCAL TIME.  The part blobs
themselves are a pure function of the document.

`Env` is the ambient state a run observes; `save` models one `prs.save`:
the artifact's content (`parts`, canvas dimensions) comes only from the
deck, while `memberTime` records the run's clock reading written into the
member headers (every member of one save carries the same run time, so one
field represents them). -/

structure Env where
  systemTime : Nat
  randomSeed : Nat
  deriving DecidableEq, Repr

/-- A serialized output artifact: the zip container's member-header
timestamp bytes plus the content determined by the deck. -/
structure Artifact where
  memberTime : Nat
  parts : List Slide
  width : Int
  height : Int
  deriving DecidableEq, Repr

/-- `prs.save(path)`: serializes the deck (content a pure function of the
deck) and stamps the zip member headers with the run's current time. -/
def save (d : Deck) (e : Env) : Artifact :=
  { memberTime := e.systemTime, parts := d.slides,
    width := d.slide_width, height := d.slide_height }

/-- One whole run of `__main__` under an ambient environment: each of the
five builders constructs its deck (no builder reads any environment input)
and saves it. -/
def buildRun (e : Env) : List Artifact := presentations.map fun d => save d e

/-! ## Full-canvas backgrounds -/

/-- Does an element's rectangle cover the whole 13.333 × 7.5 canvas? -/
def coversCanvas : Element → Bool
  | .shape s => decide (s.left ≤ 0 ∧ s.top ≤ 0 ∧
      SLIDE_WIDTH ≤ s.left + s.width ∧ SLIDE_HEIGHT ≤ s.top + s.height)
  | .text t => decide (t.left ≤ 0 ∧ t.top ≤ 0 ∧
      SLIDE_WIDTH ≤ t.left + t.width ∧ SLIDE_HEIGHT ≤ t.top + t.height)

/-- Number of canvas-covering elements on a slide. -/
def fullCanvasCount (s : Slide) : Nat := (s.filter coversCanvas).length

/-- The glow oval of design 1 slide 1 (source lines 91-93), used as a
concrete solid-fill shape. -/
def glowShape : Shape :=
  { kind := .oval, left := 8000, top := 1000, width := 6000, height := 6000,
    fill := .solid (rgb 0xFF 0x79 0x32), alphas := [] }

/-- The first animated-border shape of design 5 slide 5 (source lines
1209-1215), the script's concrete line-only (`fill.background()`) shape. -/
def borderShape : Shape :=
  { kind := .roundedRectangle, left := 1980, top := 1480, width := 9340, height := 4540,
    fill := .noFill, alphas := [] }

/-! # Theorems -/

/-- Claim C1, counterexample.  The injection appends: after
`set_opacity(h, 15000)` then `set_opacity(h, 70000)` the fill colour node of
the glow shape carries TWO alpha attributes, `[15000, 70000]`, not the
single attribute `[70000]` the claim requires; and repeating the same
percent is not idempotent - it duplicates the attribute. -/
theorem set_opacity_append_cex :
    (set_opacity (set_opacity glowShape 15000) 70000).alphas = [15000, 70000] ∧
    (set_opacity (set_opacity glowShape 15000) 70000).alphas ≠ [70000] ∧
    set_opacity (set_opacity glowShape 15000) 15000 ≠ set_opacity glowShape 15000 := by
  refine ⟨rfl, ?_, ?_⟩ <;> decide

/-- Claim C1, amended: on a solid-filled shape, `set_opacity(h, p)` followed
by `set_opacity(h, q)` APPENDS both values to the fill colour node's alpha
attribute list - the node ends with the attributes `p` then `q` (q last),
not a single overwritten value, and repeating one percent duplicates its
attribute rather than equalling a single call. -/
theorem set_opacity_appends (s : Shape) (c : RGB) (p q : Nat)
    (hsolid : s.fill = .solid c) :
    (set_opacity (set_opacity s p) q).alphas = s.alphas ++ [p, q] := by
  rcases s with ⟨k, l, t, w, h, f, a⟩
  cases f with
  | noFill => simp at hsolid
  | solid c2 => simp [set_opacity]

/-- Witness for `set_opacity_appends` at the glow shape of design 1. -/
theorem set_opacity_appends_witness :
    glowShape.fill = .solid (rgb 0xFF 0x79 0x32) ∧
    (set_opacity (set_opacity glowShape 15000) 70000).alphas =
      glowShape.alphas ++ [15000, 70000] :=
  ⟨rfl, set_opacity_appends glowShape (rgb 0xFF 0x79 0x32) 15000 70000 rfl⟩

/-- Claim C2, counterexample.  `place_shape` performs no geometry
validation: with width = -1 inch (and a valid colour) the call SUCCEEDS and
records the negative width, instead of failing with `InvalidGeometry` as
the claim requires; `place_text` behaves the same. -/
theorem place_shape_no_geometry_check_cex :
    place_shape [] .rectangle 0 0 (-1000) 1000 255 121 50 =
      .ok (add_shape [] .rectangle 0 0 (-1000) 1000 (rgb 255 121 50)) ∧
    place_text [] 0 0 (-1000) 1000 255 255 255 =
      .ok (add_text_box [] 0 0 (-1000) 1000) := by
  exact ⟨rfl, rfl⟩

/-- Claim C2, amended: a `place_shape`/`place_text` call fails if and only
if a colour channel lies outside [0, 255] (the library's colour constructor
raises, which aborts the artifact's construction before anything is saved);
width and height are never validated - non-positive dimensions are accepted
and recorded exactly as supplied. -/
theorem place_ops_fail_iff_bad_color (slide : Slide) (k : ShapeKind)
    (l t w h r g b : Int) :
    ((place_shape slide k l t w h r g b = .error .invalidColor) ↔
      ¬(0 ≤ r ∧ r ≤ 255 ∧ 0 ≤ g ∧ g ≤ 255 ∧ 0 ≤ b ∧ b ≤ 255)) ∧
    ((place_text slide l t w h r g b = .error .invalidColor) ↔
      ¬(0 ≤ r ∧ r ≤ 255 ∧ 0 ≤ g ∧ g ≤ 255 ∧ 0 ≤ b ∧ b ≤ 255)) := by
  by_cases hc : 0 ≤ r ∧ r ≤ 255 ∧ 0 ≤ g ∧ g ≤ 255 ∧ 0 ≤ b ∧ b ≤ 255 <;>
    simp [place_shape, place_text, RGBColor, hc, Except.map]

/-- Claim C3, counterexample.  If serializing the first deck fails, the
exception aborts `__main__`: NO further deck is built or serialized
(`saved = []`), contradicting the claim that the remaining four decks are
still produced. -/
theorem save_failure_aborts_rest_cex :
    runMain (fun p => p == "/root/fahrerplanung/presentations/design-1-cinematic-dark.pptx") =
      { saved := [],
        error := some "/root/fahrerplanung/presentations/design-1-cinematic-dark.pptx" } := by
  rfl

/-- Helper: `runSaves` saves the artifacts before the first failing one and
stops there, reporting that artifact's path. -/
theorem runSaves_spec (l : List String) (f : String → Bool) :
    runSaves l f = { saved := l.takeWhile (fun p => !f p),
                     error := (l.dropWhile (fun p => !f p)).head? } := by
  induction l with
  | nil => rfl
  | cons p rest ih =>
      by_cases hp : f p <;> simp [runSaves, hp, ih]

/-- Claim C3, amended: a serialization failure propagates as an uncaught
exception carrying the failing artifact's path, and construction of the
remaining decks is ABORTED - exactly the decks preceding the first failure
are built and serialized, and the reported path is the first failing
artifact's. -/
theorem runMain_stops_at_first_failure (f : String → Bool) :
    (runMain f).saved = artifactPaths.takeWhile (fun p => !f p) ∧
    (runMain f).error = (artifactPaths.dropWhile (fun p => !f p)).head? := by
  rw [runMain, runSaves_spec]
  exact ⟨rfl, rfl⟩

/-- Claim C4: invoking `set_opacity` on a shape whose fill is not solid
(no fill / line-only) is a silent no-op - the shape is returned unchanged
(in particular it acquires no alpha attribute, staying fully opaque), and
the operation is total, so no error interrupts deck generation. -/
theorem set_opacity_no_fill_noop (s : Shape) (v : Nat) (hnf : s.fill = .noFill) :
    set_opacity s v = s ∧ (set_opacity s v).alphas = s.alphas := by
  rcases s with ⟨k, l, t, w, h, f, a⟩
  cases f with
  | noFill => exact ⟨rfl, rfl⟩
  | solid c => simp at hnf

/-- Witness for `set_opacity_no_fill_noop` at the line-only border shape of
design 5 slide 5. -/
theorem set_opacity_no_fill_noop_witness :
    borderShape.fill = .noFill ∧
    (set_opacity borderShape 70000 = borderShape ∧
      (set_opacity borderShape 70000).alphas = borderShape.alphas) :=
  ⟨rfl, set_opacity_no_fill_noop borderShape 70000 rfl⟩

/-- Claim C5, counterexample.  Slide 2 of deck 3 (the split layout: a
4-inch orange panel beside a 9.333-inch white panel) contains NO element
covering the whole 13.333 × 7.5 canvas, so not every slide includes exactly
one full-canvas background fill. -/
theorem full_canvas_background_cex :
    presentations.getD 2 Presentation_new = create_presentation_3 ∧
    create_presentation_3.slides.getD 1 [] = p3s2 ∧
    fullCanvasCount p3s2 = 0 := by
  refine ⟨rfl, rfl, ?_⟩
  decide

/-- Claim C5, amended: every slide is an ordered stack of shapes and text
boxes, and every slide EXCEPT deck 3 slide 2 and deck 4 slide 5 contains
exactly one canvas-covering element, which is the slide's first element;
those two split-layout slides tile the canvas with partial panels and
contain no canvas-covering element. -/
theorem slides_have_one_full_canvas_background :
    ∀ i : Fin 5, ∀ j : Fin 5,
      if (i.val = 2 ∧ j.val = 1) ∨ (i.val = 3 ∧ j.val = 4) then
        fullCanvasCount ((presentations.getD i Presentation_new).slides.getD j []) = 0
      else
        fullCanvasCount ((presentations.getD i Presentation_new).slides.getD j []) = 1 ∧
        coversCanvas (((presentations.getD i Presentation_new).slides.getD j []).headD default)
          = true := by
  decide

/-- Claim C6: for every positive width and height (and any in-range fill
colour), `place_shape` succeeds, and the shape it appends reports exactly
the caller-supplied left, top, width and height - no clamping to the canvas
occurs anywhere on the path. -/
theorem place_shape_exact_bounds (slide : Slide) (k : ShapeKind)
    (l t w h r g b : Int)
    (hc : 0 ≤ r ∧ r ≤ 255 ∧ 0 ≤ g ∧ g ≤ 255 ∧ 0 ≤ b ∧ b ≤ 255)
    (hw : 0 < w) (hh : 0 < h) :
    place_shape slide k l t w h r g b =
      .ok (add_shape slide k l t w h (rgb r.toNat g.toNat b.toNat)) ∧
    (add_shape slide k l t w h (rgb r.toNat g.toNat b.toNat)).2.left = l ∧
    (add_shape slide k l t w h (rgb r.toNat g.toNat b.toNat)).2.top = t ∧
    (add_shape slide k l t w h (rgb r.toNat g.toNat b.toNat)).2.width = w ∧
    (add_shape slide k l t w h (rgb r.toNat g.toNat b.toNat)).2.height = h := by
  refine ⟨?_, rfl, rfl, rfl, rfl⟩
  simp [place_shape, RGBColor, hc, Except.map]

/-- Witness for `place_shape_exact_bounds` at the glass card of design 1
slide 1 (rounded rectangle at 0.8, 5.2, 7 × 1.5 inches, colour 0x1A1A1A). -/
theorem place_shape_exact_bounds_witness :
    ((0:Int) ≤ 0x1A ∧ (0x1A:Int) ≤ 255 ∧ (0:Int) ≤ 0x1A ∧ (0x1A:Int) ≤ 255 ∧
      (0:Int) ≤ 0x1A ∧ (0x1A:Int) ≤ 255) ∧ (0:Int) < 7000 ∧ (0:Int) < 1500 ∧
    (place_shape [] .roundedRectangle 800 5200 7000 1500 0x1A 0x1A 0x1A =
      .ok (add_shape [] .roundedRectangle 800 5200 7000 1500
            (rgb (0x1A:Int).toNat (0x1A:Int).toNat (0x1A:Int).toNat)) ∧
      (add_shape [] .roundedRectangle 800 5200 7000 1500
            (rgb (0x1A:Int).toNat (0x1A:Int).toNat (0x1A:Int).toNat)).2.left = 800 ∧
      (add_shape [] .roundedRectangle 800 5200 7000 1500
            (rgb (0x1A:Int).toNat (0x1A:Int).toNat (0x1A:Int).toNat)).2.top = 5200 ∧
      (add_shape [] .roundedRectangle 800 5200 7000 1500
            (rgb (0x1A:Int).toNat (0x1A:Int).toNat (0x1A:Int).toNat)).2.width = 7000 ∧
      (add_shape [] .roundedRectangle 800 5200 7000 1500
            (rgb (0x1A:Int).toNat (0x1A:Int).toNat (0x1A:Int).toNat)).2.height = 1500) :=
  ⟨by decide, by decide, by decide,
    place_shape_exact_bounds [] .roundedRectangle 800 5200 7000 1500 0x1A 0x1A 0x1A
      (by decide) (by decide) (by decide)⟩

/-- Claim C7: the program builds exactly five decks, each with exactly five
slides, and serializes each deck to exactly one artifact (the five output
paths, all distinct). -/
theorem five_decks_five_slides_one_artifact_each :
    presentations.length = 5 ∧
    (presentations.map fun d => d.slides.length) = [5, 5, 5, 5, 5] ∧
    artifactPaths.length = 5 ∧
    artifactPaths.Nodup := by
  refine ⟨rfl, rfl, rfl, ?_⟩
  decide

/-- Claim C8, counterexample.  Two runs of the identical construction at
clock times 0 and 1 produce artifacts that differ: the zip member headers
carry the run's current time, so the outputs are NOT byte-for-byte
identical, refuting the claim as stated. -/
theorem artifact_timestamp_cex :
    (save create_presentation_1 { systemTime := 0, randomSeed := 0 }).memberTime = 0 ∧
    (save create_presentation_1 { systemTime := 1, randomSeed := 0 }).memberTime = 1 ∧
    save create_presentation_1 { systemTime := 0, randomSeed := 0 } ≠
      save create_presentation_1 { systemTime := 1, randomSeed := 0 } ∧
    buildRun { systemTime := 0, randomSeed := 0 } ≠
      buildRun { systemTime := 1, randomSeed := 0 } := by
  refine ⟨rfl, rfl, fun hcontra => ?_, fun hcontra => ?_⟩
  · exact absurd (congrArg Artifact.memberTime hcontra) (by decide)
  · exact absurd (congrArg (fun l => l.map Artifact.memberTime) hcontra) (by decide)

/-- Claim C8, amended: the construction itself is deterministic - the built
decks, and hence every content byte of the artifacts, are identical across
runs regardless of the ambient environment (no timestamp or random ID is
embedded in the construction) - but full byte-for-byte identity of the
output artifacts holds exactly when the two runs read the same clock time,
because the zip member headers written at save time carry the current
time. -/
theorem artifacts_deterministic_up_to_timestamp (e1 e2 : Env) :
    (buildRun e1).map (fun a => (a.parts, a.width, a.height)) =
      (buildRun e2).map (fun a => (a.parts, a.width, a.height)) ∧
    (e1.systemTime = e2.systemTime → buildRun e1 = buildRun e2) := by
  constructor
  · simp [buildRun, save]
  · intro ht
    rcases e1 with ⟨t1, r1⟩
    rcases e2 with ⟨t2, r2⟩
    simp only at ht
    subst ht
    rfl

/-- Witness for `artifacts_deterministic_up_to_timestamp` at two runs with
equal clock time 5 and different random seeds. -/
theorem artifacts_deterministic_up_to_timestamp_witness :
    (buildRun { systemTime := 5, randomSeed := 7 }).map (fun a => (a.parts, a.width, a.height)) =
      (buildRun { systemTime := 5, randomSeed := 11 }).map (fun a => (a.parts, a.width, a.height)) ∧
    buildRun { systemTime := 5, randomSeed := 7 } =
      buildRun { systemTime := 5, randomSeed := 11 } :=
  ⟨(artifacts_deterministic_up_to_timestamp ⟨5, 7⟩ ⟨5, 11⟩).1,
   (artifacts_deterministic_up_to_timestamp ⟨5, 7⟩ ⟨5, 11⟩).2 rfl⟩

/-- Claim C9: every deck's canvas is assigned the fixed 13.333 × 7.5
dimensions once, right after creation, and the slide-level operations the
script subsequently performs never change the canvas dimensions. -/
theorem canvas_dimensions_fixed :
    (presentations.map fun d => (d.slide_width, d.slide_height)) =
      [(13333, 7500), (13333, 7500), (13333, 7500), (13333, 7500), (13333, 7500)] ∧
    (∀ d : Deck, (add_slide d).slide_width = d.slide_width ∧
      (add_slide d).slide_height = d.slide_height) ∧
    (∀ (d : Deck) (s : Slide), (add_built_slide d s).slide_width = d.slide_width ∧
      (add_built_slide d s).slide_height = d.slide_height) :=
  ⟨rfl, fun _ => ⟨rfl, rfl⟩, fun _ _ => ⟨rfl, rfl⟩⟩

/-- Claim C10: `add_shape_with_opacity` never reads its `opacity` parameter
- any two opacity values yield identical results, and the created shape
carries no alpha attribute (fully opaque). -/
theorem add_shape_with_opacity_ignores_opacity (slide : Slide) (k : ShapeKind)
    (l t w h : Int) (c : RGB) (o1 o2 : ℚ) (lc : Option RGB) :
    add_shape_with_opacity slide k l t w h c o1 lc =
      add_shape_with_opacity slide k l t w h c o2 lc ∧
    (add_shape_with_opacity slide k l t w h c o1 lc).2.alphas = [] :=
  ⟨rfl, rfl⟩

end Pres

